import Mathlib

/-!
Verification of the data logic of `src/src/main.py` (a Streamlit
personal-finance dashboard with two tables, `Amount` and `Data`).

The embedding models a pandas DataFrame as a `List` of records, a pandas
`Timestamp` as a calendar day plus a time-of-day component, and float cells
that can become non-finite (division by a zero baseline yields inf or NaN in
pandas) as `Option ℚ`, with `none` standing for a non-finite value.
Operations that raise in Python (`df.iloc[0]` on an empty frame) return
`Option`, with `none` standing for the raised exception.
-/

set_option autoImplicit false

namespace VnStock

/-- Model of a pandas `Timestamp` stored in the `Date` column: a calendar
day (`day`) together with a time-of-day component (`tod`).
`df['Date'].dt.date` and `selected_date.date()` project out `day`. -/
structure Timestamp where
  day : Int
  tod : Nat
deriving DecidableEq, Repr

/-- Calendar-date equality, the comparison
`df['Date'].dt.date == selected_date.date()` (main.py lines 76 and 180):
only the `day` components are compared, time-of-day is ignored. -/
def sameDate (a b : Timestamp) : Bool := a.day == b.day

/-- One row of the `Data` table (columns `DATA_COLUMNS`, main.py line 13).
The derived index cells are `Option ℚ`: `none` models a non-finite float
produced by dividing by a zero baseline. -/
structure DataRecord where
  Date : Timestamp
  NAV : ℚ
  Vni : ℚ
  NAV_index : Option ℚ
  Vni_index : Option ℚ
deriving DecidableEq, Repr

/-- One row of the `Amount` table (main.py line 59). -/
structure AmountRecord where
  Date : Timestamp
  MH : ℚ
  TA : ℚ
  AT : ℚ
  Total : ℚ
deriving DecidableEq, Repr

/-- The existence test `len(df[mask]) > 0` / `existing_data is not None`
(main.py lines 76-77 and 180-181): does any row of `df` fall on the same
calendar date as `d`. -/
def existsSameDate {α : Type} (date : α → Timestamp) (df : List α) (d : Timestamp) : Bool :=
  df.any (fun r => sameDate (date r) d)

/-- The upsert of the save handlers (main.py lines 126-129 and 234-237):
when a row with the candidate's calendar date exists, `df.loc[mask] =
new_data` overwrites every masked row in place; otherwise
`pd.concat([df, pd.DataFrame([new_data])], ignore_index=True)` appends the
candidate at the end. -/
def upsertBy {α : Type} (date : α → Timestamp) (df : List α) (c : α) : List α :=
  if existsSameDate date df (date c) then
    df.map (fun r => if sameDate (date r) (date c) then c else r)
  else
    df ++ [c]

/-- The delete handlers' `df = df[~mask]` (main.py lines 139 and 254):
drop every row on the selected calendar date. -/
def dropDate {α : Type} (date : α → Timestamp) (df : List α) (d : Timestamp) : List α :=
  df.filter (fun r => !sameDate (date r) d)

/-- `Date` is unique per table as calendar days: the days of the rows are
pairwise distinct. -/
def distinctDates {α : Type} (date : α → Timestamp) (df : List α) : Prop :=
  (df.map (fun r => (date r).day)).Nodup

instance decidableDistinctDates {α : Type} (date : α → Timestamp) (df : List α) :
    Decidable (distinctDates date df) :=
  inferInstanceAs (Decidable (df.map (fun r => (date r).day)).Nodup)

/-- Data-table instance of the existence test (main.py lines 180-181). -/
def existsForDateD (df : List DataRecord) (d : Timestamp) : Bool :=
  existsSameDate DataRecord.Date df d

/-- Amount-table instance of the existence test (main.py lines 76-77). -/
def existsForDateA (df : List AmountRecord) (d : Timestamp) : Bool :=
  existsSameDate AmountRecord.Date df d

/-- Data-table upsert (main.py lines 234-237). -/
def upsertData (df : List DataRecord) (c : DataRecord) : List DataRecord :=
  upsertBy DataRecord.Date df c

/-- Amount-table upsert (main.py lines 126-129). -/
def upsertAmount (df : List AmountRecord) (c : AmountRecord) : List AmountRecord :=
  upsertBy AmountRecord.Date df c

/-- Data-table delete mask application (main.py line 254). -/
def dropDateD (df : List DataRecord) (d : Timestamp) : List DataRecord :=
  dropDate DataRecord.Date df d

/-- Amount-table delete mask application (main.py line 139). -/
def dropDateA (df : List AmountRecord) (d : Timestamp) : List AmountRecord :=
  dropDate AmountRecord.Date df d

/-- Columnwise float division `v / base` as pandas performs it: when
`base = 0` the result is a non-finite float (inf, -inf or NaN), modelled
as `none`; otherwise the exact quotient. -/
def colDiv (v base : ℚ) : Option ℚ :=
  if base = 0 then none else some (v / base)

/-- One cell of `df['NAV'] / first_nav * 100` (main.py lines 243-244):
a non-finite quotient stays non-finite after scaling by 100. -/
def rowIndex (v base : ℚ) : Option ℚ :=
  Option.map (fun x => x * 100) (colDiv v base)

/-- The whole-table index recomputation (main.py lines 240-244 after a save
and 256-261 after a delete): `first_nav = df.iloc[0]['NAV']`,
`df['NAV_index'] = df['NAV'] / first_nav * 100`, likewise for `Vni`.
`iloc[0]` on an empty frame raises, modelled as `none`.  Note there is no
zero-baseline guard here, unlike the form-display computation
(main.py lines 206-207). -/
def recomputeIndices (df : List DataRecord) : Option (List DataRecord) :=
  match df.head? with
  | none => none
  | some first =>
      some (df.map (fun r =>
        { r with
          NAV_index := rowIndex r.NAV first.NAV
          Vni_index := rowIndex r.Vni first.Vni }))

/-- The candidate `new_data` of the Data save handler (main.py lines
226-232), whose index fields come from the form-display computation at
lines 203-210: baseline from `df.iloc[0]` of the pre-save table, with a
zero-baseline guard yielding 0, and 100 for an empty table. -/
def newDataRecord (df : List DataRecord) (selected : Timestamp)
    (nav_value vni_value : ℚ) : DataRecord :=
  match df.head? with
  | none =>
      { Date := selected, NAV := nav_value, Vni := vni_value,
        NAV_index := some 100, Vni_index := some 100 }
  | some first =>
      { Date := selected, NAV := nav_value, Vni := vni_value,
        NAV_index := some (if first.NAV ≠ 0 then nav_value / first.NAV * 100 else 0),
        Vni_index := some (if first.Vni ≠ 0 then vni_value / first.Vni * 100 else 0) }

/-- The Data save handler (main.py lines 225-246): build `new_data`, upsert
it by calendar date, then recompute both index columns over the whole table
(guarded by `len(df) > 0`). -/
def saveDataOp (df : List DataRecord) (selected : Timestamp)
    (nav_value vni_value : ℚ) : Option (List DataRecord) :=
  let df2 := upsertData df (newDataRecord df selected nav_value vni_value)
  if 0 < df2.length then recomputeIndices df2 else some df2

/-- The Data delete handler's in-memory update (main.py lines 251-263):
drop the masked rows, then recompute the index columns only when the
remaining table is non-empty (`if not df.empty`). -/
def deleteDataOp (df : List DataRecord) (selected : Timestamp) :
    Option (List DataRecord) :=
  let df2 := dropDateD df selected
  if df2.isEmpty then some df2 else recomputeIndices df2

/-- The candidate `new_data` of the Amount save handler (main.py lines
118-124), with `total = mh_value + ta_value + at_value` from line 107. -/
def newAmountRecord (selected : Timestamp) (mh_value ta_value at_value : ℚ) :
    AmountRecord :=
  { Date := selected, MH := mh_value, TA := ta_value, AT := at_value,
    Total := mh_value + ta_value + at_value }

/-- The Amount save handler (main.py lines 117-129): build `new_data` and
upsert it by calendar date. -/
def saveAmountOp (df : List AmountRecord) (selected : Timestamp)
    (mh_value ta_value at_value : ℚ) : List AmountRecord :=
  upsertAmount df (newAmountRecord selected mh_value ta_value at_value)

/-- The Amount delete handler's in-memory update (main.py line 139). -/
def deleteAmountOp (df : List AmountRecord) (selected : Timestamp) :
    List AmountRecord :=
  dropDateA df selected

/-- An `sqlite3.Error` raised by the database layer. -/
inductive SqliteError where
  | err : SqliteError
deriving DecidableEq, Repr

/-- A low-level database action run inside `with sqlite3.connect(DB_PATH)`:
it either returns a value together with the updated store, or raises
`sqlite3.Error`.  The connection context manager commits on success and
rolls back the transaction on an exception, so a failing action yields no
new store. -/
def DBAction (σ : Type) (α : Type) : Type := σ → Except SqliteError (α × σ)

/-- `execute_query` (main.py lines 18-24): run the query, catch
`sqlite3.Error` and return `None`, leaving the store as it was. -/
def execute_query {σ α : Type} (action : DBAction σ α) (st : σ) : Option α × σ :=
  match action st with
  | Except.ok (a, st2) => (some a, st2)
  | Except.error _ => (none, st)

/-- `save_to_sqlite` (main.py lines 26-33): write the table, return `True`
on success; catch `sqlite3.Error` and return `False`, the rolled-back store
unchanged. -/
def save_to_sqlite {σ : Type} (action : DBAction σ Unit) (st : σ) : Bool × σ :=
  match action st with
  | Except.ok (_, st2) => (true, st2)
  | Except.error _ => (false, st)

/-- `delete_entry` (main.py lines 35-44): run the DELETE, return `True` on
success; catch `sqlite3.Error` and return `False`, the rolled-back store
unchanged. -/
def delete_entry {σ : Type} (action : DBAction σ Unit) (st : σ) : Bool × σ :=
  match action st with
  | Except.ok (_, st2) => (true, st2)
  | Except.error _ => (false, st)

/-- A query action that raises `sqlite3.Error` on any store (used to
exercise the failure branch of the wrappers). -/
def failingQuery : DBAction Nat Nat := fun _ => Except.error SqliteError.err

/-- A mutation action that raises `sqlite3.Error` on any store. -/
def failingMutation : DBAction Nat Unit := fun _ => Except.error SqliteError.err

/-! ## Helper lemmas -/

theorem sameDate_iff (a b : Timestamp) : sameDate a b = true ↔ a.day = b.day := by
  simp [sameDate]

theorem sameDate_self (a : Timestamp) : sameDate a a = true := by
  simp [sameDate]

theorem existsSameDate_eq_false_iff {α : Type} (date : α → Timestamp)
    (df : List α) (d : Timestamp) :
    existsSameDate date df d = false ↔ ∀ r ∈ df, sameDate (date r) d = false := by
  simp [existsSameDate]

theorem length_upsertBy_of_exists {α : Type} (date : α → Timestamp) (df : List α)
    (c : α) (h : existsSameDate date df (date c) = true) :
    (upsertBy date df c).length = df.length := by
  simp [upsertBy, h]

theorem upsertBy_of_not_exists {α : Type} (date : α → Timestamp) (df : List α)
    (c : α) (h : existsSameDate date df (date c) = false) :
    upsertBy date df c = df ++ [c] := by
  simp [upsertBy, h]

theorem mem_upsertBy_self {α : Type} (date : α → Timestamp) (df : List α) (c : α) :
    c ∈ upsertBy date df c := by
  unfold upsertBy
  by_cases h : existsSameDate date df (date c) = true
  · rw [if_pos h]
    rcases List.any_eq_true.mp h with ⟨r, hr, hs⟩
    exact List.mem_map.mpr ⟨r, hr, by rw [if_pos hs]⟩
  · rw [if_neg h]
    simp

theorem eq_of_mem_upsertBy_matching {α : Type} (date : α → Timestamp)
    (df : List α) (c r : α) (hr : r ∈ upsertBy date df c)
    (hs : sameDate (date r) (date c) = true) : r = c := by
  unfold upsertBy at hr
  by_cases h : existsSameDate date df (date c) = true
  · rw [if_pos h] at hr
    rcases List.mem_map.mp hr with ⟨a, _, hmap⟩
    by_cases hm : sameDate (date a) (date c) = true
    · rw [if_pos hm] at hmap
      exact hmap.symm
    · rw [if_neg hm] at hmap
      rw [← hmap] at hs
      exact absurd hs hm
  · rw [if_neg h] at hr
    rcases List.mem_append.mp hr with hmem | hmem
    · have hall := (existsSameDate_eq_false_iff date df (date c)).mp
        (Bool.eq_false_iff.mpr h)
      rw [hall r hmem] at hs
      cases hs
    · simpa using hmem

theorem getElem?_upsertBy_of_not_matching {α : Type} (date : α → Timestamp)
    (df : List α) (c : α) (i : Nat) (r : α) (hi : df[i]? = some r)
    (hs : sameDate (date r) (date c) = false) :
    (upsertBy date df c)[i]? = some r := by
  unfold upsertBy
  by_cases h : existsSameDate date df (date c) = true
  · rw [if_pos h, List.getElem?_map, hi]
    simp [hs]
  · rw [if_neg h]
    have hlt : i < df.length := by
      rcases List.getElem?_eq_some.mp hi with ⟨hl, _⟩
      exact hl
    rw [List.getElem?_append_left hlt, hi]

theorem head?_upsertBy_of_not_matching {α : Type} (date : α → Timestamp)
    (a : α) (rest : List α) (c : α) (hs : sameDate (date a) (date c) = false) :
    (upsertBy date (a :: rest) c).head? = some a := by
  unfold upsertBy
  by_cases h : existsSameDate date (a :: rest) (date c) = true
  · rw [if_pos h]
    simp [hs]
  · rw [if_neg h]
    rfl

theorem map_day_upsertBy_of_exists {α : Type} (date : α → Timestamp)
    (df : List α) (c : α) (h : existsSameDate date df (date c) = true) :
    (upsertBy date df c).map (fun r => (date r).day)
      = df.map (fun r => (date r).day) := by
  rw [upsertBy, if_pos h, List.map_map]
  apply List.map_congr_left
  intro a _
  by_cases hm : sameDate (date a) (date c) = true
  · simp only [Function.comp_apply, if_pos hm]
    exact ((sameDate_iff _ _).mp hm).symm
  · simp only [Function.comp_apply, if_neg hm]

theorem distinctDates_upsertBy {α : Type} (date : α → Timestamp)
    (df : List α) (c : α) (h : distinctDates date df) :
    distinctDates date (upsertBy date df c) := by
  by_cases he : existsSameDate date df (date c) = true
  · unfold distinctDates
    rw [map_day_upsertBy_of_exists date df c he]
    exact h
  · have he2 : existsSameDate date df (date c) = false := Bool.eq_false_iff.mpr he
    rw [upsertBy_of_not_exists date df c he2]
    unfold distinctDates at h ⊢
    rw [List.map_append]
    refine List.nodup_append.mpr ⟨h, List.nodup_singleton _, ?_⟩
    intro x hx hx2
    rcases List.mem_map.mp hx with ⟨a, ha, hax⟩
    have hxc : x = (date c).day := by simpa using hx2
    have hall := (existsSameDate_eq_false_iff date df (date c)).mp he2
    have hne : (date a).day ≠ (date c).day := by
      intro hdd
      have hsd : sameDate (date a) (date c) = true := (sameDate_iff _ _).mpr hdd
      rw [hall a ha] at hsd
      cases hsd
    exact hne (hax.trans hxc)

theorem head?_dropDate_of_not_matching {α : Type} (date : α → Timestamp)
    (a : α) (rest : List α) (d : Timestamp) (hs : sameDate (date a) d = false) :
    (dropDate date (a :: rest) d).head? = some a := by
  simp [dropDate, hs]

theorem deleteDataOp_isSome (df : List DataRecord) (d : Timestamp) :
    (deleteDataOp df d).isSome = true := by
  simp only [deleteDataOp]
  cases hl : dropDateD df d with
  | nil => simp
  | cons a l => simp [recomputeIndices]

/-! ## Claim theorems -/

/-- C1 (code bug): at the failing input — saving NAV = 0, Vni = 5 into an
empty `Data` table — the whole-table recomputation divides by the zero
baseline `first_nav = 0` with no guard (main.py lines 240-244), storing a
non-finite `NAV_index` (`none` in the model) where the specification
defines the index as 0 for a zero baseline. -/
theorem zero_baseline_index_not_zero :
    saveDataOp [] ⟨0, 0⟩ 0 5 =
      some [{ Date := ⟨0, 0⟩, NAV := 0, Vni := 5,
              NAV_index := none, Vni_index := some 100 }] := by
  norm_num [saveDataOp, upsertData, upsertBy, existsSameDate, newDataRecord,
    recomputeIndices, rowIndex, colDiv]

/-- C2: upserting a candidate whose calendar date matches an existing row
leaves the row count unchanged, the candidate is present afterwards, and
every row on that date carries exactly the candidate's fields (both the
`Data` and the `Amount` table). -/
theorem upsert_existing_replaces_in_place
    (dfD : List DataRecord) (cD : DataRecord)
    (dfA : List AmountRecord) (cA : AmountRecord)
    (hD : existsForDateD dfD cD.Date = true)
    (hA : existsForDateA dfA cA.Date = true) :
    ((upsertData dfD cD).length = dfD.length ∧ cD ∈ upsertData dfD cD ∧
      (upsertData dfD cD).all
        (fun r => !sameDate r.Date cD.Date || decide (r = cD)) = true) ∧
    ((upsertAmount dfA cA).length = dfA.length ∧ cA ∈ upsertAmount dfA cA ∧
      (upsertAmount dfA cA).all
        (fun r => !sameDate r.Date cA.Date || decide (r = cA)) = true) := by
  constructor
  · refine ⟨length_upsertBy_of_exists _ _ _ hD, mem_upsertBy_self _ _ _, ?_⟩
    rw [List.all_eq_true]
    intro r hr
    by_cases hm : sameDate r.Date cD.Date = true
    · have heq := eq_of_mem_upsertBy_matching DataRecord.Date dfD cD r hr hm
      simp [heq]
    · simp [Bool.eq_false_iff.mpr hm]
  · refine ⟨length_upsertBy_of_exists _ _ _ hA, mem_upsertBy_self _ _ _, ?_⟩
    rw [List.all_eq_true]
    intro r hr
    by_cases hm : sameDate r.Date cA.Date = true
    · have heq := eq_of_mem_upsertBy_matching AmountRecord.Date dfA cA r hr hm
      simp [heq]
    · simp [Bool.eq_false_iff.mpr hm]

/-- C2 witness at a concrete input for both tables. -/
theorem upsert_existing_replaces_in_place_witness :
    existsForDateD [⟨⟨1, 9⟩, 10, 20, none, none⟩] (⟨⟨1, 0⟩, 11, 21, some 100, some 100⟩ : DataRecord).Date = true ∧
    existsForDateA [⟨⟨2, 3⟩, 1, 2, 3, 6⟩] (⟨⟨2, 0⟩, 4, 5, 6, 15⟩ : AmountRecord).Date = true ∧
    (((upsertData [⟨⟨1, 9⟩, 10, 20, none, none⟩] ⟨⟨1, 0⟩, 11, 21, some 100, some 100⟩).length = 1 ∧
      (⟨⟨1, 0⟩, 11, 21, some 100, some 100⟩ : DataRecord) ∈
        upsertData [⟨⟨1, 9⟩, 10, 20, none, none⟩] ⟨⟨1, 0⟩, 11, 21, some 100, some 100⟩ ∧
      (upsertData [⟨⟨1, 9⟩, 10, 20, none, none⟩] ⟨⟨1, 0⟩, 11, 21, some 100, some 100⟩).all
        (fun r => !sameDate r.Date (⟨⟨1, 0⟩, 11, 21, some 100, some 100⟩ : DataRecord).Date ||
          decide (r = ⟨⟨1, 0⟩, 11, 21, some 100, some 100⟩)) = true) ∧
    ((upsertAmount [⟨⟨2, 3⟩, 1, 2, 3, 6⟩] ⟨⟨2, 0⟩, 4, 5, 6, 15⟩).length = 1 ∧
      (⟨⟨2, 0⟩, 4, 5, 6, 15⟩ : AmountRecord) ∈
        upsertAmount [⟨⟨2, 3⟩, 1, 2, 3, 6⟩] ⟨⟨2, 0⟩, 4, 5, 6, 15⟩ ∧
      (upsertAmount [⟨⟨2, 3⟩, 1, 2, 3, 6⟩] ⟨⟨2, 0⟩, 4, 5, 6, 15⟩).all
        (fun r => !sameDate r.Date (⟨⟨2, 0⟩, 4, 5, 6, 15⟩ : AmountRecord).Date ||
          decide (r = ⟨⟨2, 0⟩, 4, 5, 6, 15⟩)) = true)) :=
  ⟨by decide, by decide,
    upsert_existing_replaces_in_place
      [⟨⟨1, 9⟩, 10, 20, none, none⟩] ⟨⟨1, 0⟩, 11, 21, some 100, some 100⟩
      [⟨⟨2, 3⟩, 1, 2, 3, 6⟩] ⟨⟨2, 0⟩, 4, 5, 6, 15⟩ (by decide) (by decide)⟩

/-- C3: upserting a candidate whose calendar date matches no row appends it
at the end, growing the table by exactly one row; on the empty table the
candidate becomes the sole row (both tables). -/
theorem upsert_new_date_appends
    (dfD : List DataRecord) (cD : DataRecord)
    (dfA : List AmountRecord) (cA : AmountRecord)
    (hD : existsForDateD dfD cD.Date = false)
    (hA : existsForDateA dfA cA.Date = false) :
    (upsertData dfD cD = dfD ++ [cD] ∧
      (upsertData dfD cD).length = dfD.length + 1 ∧
      upsertData [] cD = [cD]) ∧
    (upsertAmount dfA cA = dfA ++ [cA] ∧
      (upsertAmount dfA cA).length = dfA.length + 1 ∧
      upsertAmount [] cA = [cA]) := by
  have h1 := upsertBy_of_not_exists DataRecord.Date dfD cD hD
  have h2 := upsertBy_of_not_exists AmountRecord.Date dfA cA hA
  refine ⟨⟨h1, ?_, rfl⟩, ⟨h2, ?_, rfl⟩⟩
  · rw [show upsertData dfD cD = dfD ++ [cD] from h1]
    simp
  · rw [show upsertAmount dfA cA = dfA ++ [cA] from h2]
    simp

/-- C3 witness at a concrete input for both tables, including the empty
table. -/
theorem upsert_new_date_appends_witness :
    existsForDateD [⟨⟨1, 9⟩, 10, 20, none, none⟩] (⟨⟨2, 0⟩, 11, 21, some 100, some 100⟩ : DataRecord).Date = false ∧
    existsForDateA [⟨⟨2, 3⟩, 1, 2, 3, 6⟩] (⟨⟨3, 0⟩, 4, 5, 6, 15⟩ : AmountRecord).Date = false ∧
    ((upsertData [⟨⟨1, 9⟩, 10, 20, none, none⟩] ⟨⟨2, 0⟩, 11, 21, some 100, some 100⟩ =
        [⟨⟨1, 9⟩, 10, 20, none, none⟩] ++ [⟨⟨2, 0⟩, 11, 21, some 100, some 100⟩] ∧
      (upsertData [⟨⟨1, 9⟩, 10, 20, none, none⟩] ⟨⟨2, 0⟩, 11, 21, some 100, some 100⟩).length = 1 + 1 ∧
      upsertData [] ⟨⟨2, 0⟩, 11, 21, some 100, some 100⟩ = [⟨⟨2, 0⟩, 11, 21, some 100, some 100⟩]) ∧
    (upsertAmount [⟨⟨2, 3⟩, 1, 2, 3, 6⟩] ⟨⟨3, 0⟩, 4, 5, 6, 15⟩ =
        [⟨⟨2, 3⟩, 1, 2, 3, 6⟩] ++ [⟨⟨3, 0⟩, 4, 5, 6, 15⟩] ∧
      (upsertAmount [⟨⟨2, 3⟩, 1, 2, 3, 6⟩] ⟨⟨3, 0⟩, 4, 5, 6, 15⟩).length = 1 + 1 ∧
      upsertAmount [] ⟨⟨3, 0⟩, 4, 5, 6, 15⟩ = [⟨⟨3, 0⟩, 4, 5, 6, 15⟩])) :=
  ⟨by decide, by decide,
    upsert_new_date_appends
      [⟨⟨1, 9⟩, 10, 20, none, none⟩] ⟨⟨2, 0⟩, 11, 21, some 100, some 100⟩
      [⟨⟨2, 3⟩, 1, 2, 3, 6⟩] ⟨⟨3, 0⟩, 4, 5, 6, 15⟩ (by decide) (by decide)⟩

/-- C4: pairwise-distinct calendar dates are an invariant of upsert: a
matching candidate replaces the one row on its date, a fresh date is
appended, and in both cases the days stay pairwise distinct (both
tables). -/
theorem upsert_preserves_distinct_dates
    (dfD : List DataRecord) (cD : DataRecord)
    (dfA : List AmountRecord) (cA : AmountRecord)
    (hD : distinctDates DataRecord.Date dfD)
    (hA : distinctDates AmountRecord.Date dfA) :
    distinctDates DataRecord.Date (upsertData dfD cD) ∧
    distinctDates AmountRecord.Date (upsertAmount dfA cA) :=
  ⟨distinctDates_upsertBy _ _ _ hD, distinctDates_upsertBy _ _ _ hA⟩

/-- C4 witness: a two-row table replaced on one date and one extended by a
fresh date, for each table. -/
theorem upsert_preserves_distinct_dates_witness :
    distinctDates DataRecord.Date
      [⟨⟨1, 9⟩, 10, 20, none, none⟩, ⟨⟨2, 0⟩, 11, 21, none, none⟩] ∧
    distinctDates AmountRecord.Date [⟨⟨2, 3⟩, 1, 2, 3, 6⟩] ∧
    (distinctDates DataRecord.Date
      (upsertData [⟨⟨1, 9⟩, 10, 20, none, none⟩, ⟨⟨2, 0⟩, 11, 21, none, none⟩]
        ⟨⟨1, 0⟩, 12, 22, some 100, some 100⟩) ∧
    distinctDates AmountRecord.Date
      (upsertAmount [⟨⟨2, 3⟩, 1, 2, 3, 6⟩] ⟨⟨5, 0⟩, 4, 5, 6, 15⟩)) :=
  ⟨by decide, by decide,
    upsert_preserves_distinct_dates
      [⟨⟨1, 9⟩, 10, 20, none, none⟩, ⟨⟨2, 0⟩, 11, 21, none, none⟩]
      ⟨⟨1, 0⟩, 12, 22, some 100, some 100⟩
      [⟨⟨2, 3⟩, 1, 2, 3, 6⟩] ⟨⟨5, 0⟩, 4, 5, 6, 15⟩ (by decide) (by decide)⟩

/-- C5: the existence test of both editors and the delete mask compare
calendar days only: changing the time-of-day of the selected date changes
neither the test nor the mask; a row whose `Date` falls on the selected
day makes the test true whatever both time-of-day components are; and two
timestamps on the same day always satisfy `sameDate`. -/
theorem match_ignores_time_of_day
    (dfD : List DataRecord) (dfA : List AmountRecord)
    (rD : DataRecord) (rA : AmountRecord) (d : Timestamp) (t2 : Nat) :
    existsForDateD dfD ⟨d.day, t2⟩ = existsForDateD dfD d ∧
    existsForDateA dfA ⟨d.day, t2⟩ = existsForDateA dfA d ∧
    dropDateD dfD ⟨d.day, t2⟩ = dropDateD dfD d ∧
    dropDateA dfA ⟨d.day, t2⟩ = dropDateA dfA d ∧
    existsForDateD (rD :: dfD) ⟨rD.Date.day, t2⟩ = true ∧
    existsForDateA (rA :: dfA) ⟨rA.Date.day, t2⟩ = true ∧
    sameDate ⟨d.day, t2⟩ d = true := by
  refine ⟨rfl, rfl, rfl, rfl, ?_, ?_, ?_⟩
  · simp [existsForDateD, existsSameDate, sameDate]
  · simp [existsForDateA, existsSameDate, sameDate]
  · simp [sameDate]

/-- C6: deleting the only row of the `Data` table yields the empty table
(`some []`: the guarded handler performs no index recomputation and raises
nothing), and the delete handler's in-memory update returns a table for
every input. -/
theorem delete_only_row_safe
    (r : DataRecord) (d : Timestamp) (df : List DataRecord) (d2 : Timestamp)
    (h : sameDate r.Date d = true) :
    deleteDataOp [r] d = some [] ∧ (deleteDataOp df d2).isSome = true := by
  constructor
  · simp [deleteDataOp, dropDateD, dropDate, h]
  · exact deleteDataOp_isSome df d2

/-- C6 witness: a one-row table deleted on its own date (with a different
time-of-day), plus totality at another input. -/
theorem delete_only_row_safe_witness :
    sameDate (⟨⟨7, 5⟩, 10, 20, some 100, some 100⟩ : DataRecord).Date ⟨7, 0⟩ = true ∧
    (deleteDataOp [⟨⟨7, 5⟩, 10, 20, some 100, some 100⟩] ⟨7, 0⟩ = some [] ∧
      (deleteDataOp [⟨⟨1, 0⟩, 1, 1, none, none⟩] ⟨9, 0⟩).isSome = true) :=
  ⟨by decide,
    delete_only_row_safe ⟨⟨7, 5⟩, 10, 20, some 100, some 100⟩ ⟨7, 0⟩
      [⟨⟨1, 0⟩, 1, 1, none, none⟩] ⟨9, 0⟩ (by decide)⟩

/-- C7: each storage wrapper catches `sqlite3.Error` at the point of
occurrence and returns an absent result — `none` for `execute_query`,
`false` for `save_to_sqlite` and `delete_entry` — with the store exactly
as it was (the connection's transaction was rolled back). -/
theorem storage_failure_caught
    {σ α : Type} (q : DBAction σ α) (s d : DBAction σ Unit) (st : σ)
    (e1 e2 e3 : SqliteError)
    (hq : q st = Except.error e1) (hs : s st = Except.error e2)
    (hd : d st = Except.error e3) :
    execute_query q st = (none, st) ∧ save_to_sqlite s st = (false, st) ∧
      delete_entry d st = (false, st) := by
  refine ⟨?_, ?_, ?_⟩
  · simp [execute_query, hq]
  · simp [save_to_sqlite, hs]
  · simp [delete_entry, hd]

/-- C7 witness: the failing actions on a concrete store. -/
theorem storage_failure_caught_witness :
    failingQuery 0 = Except.error SqliteError.err ∧
    failingMutation 0 = Except.error SqliteError.err ∧
    (execute_query failingQuery 0 = (none, 0) ∧
      save_to_sqlite failingMutation 0 = (false, 0) ∧
      delete_entry failingMutation 0 = (false, 0)) :=
  ⟨rfl, rfl,
    storage_failure_caught failingQuery failingMutation failingMutation 0
      SqliteError.err SqliteError.err SqliteError.err rfl rfl rfl⟩

/-- C8: after every Amount save, a row on the selected date exists and
every row on that date carries exactly the entered `MH`, `TA`, `AT` and
`Total = MH + TA + AT` recomputed from them — whatever `Total` any
previous row stored. -/
theorem amount_total_is_sum
    (df : List AmountRecord) (selected : Timestamp)
    (mh_value ta_value at_value : ℚ) :
    existsForDateA (saveAmountOp df selected mh_value ta_value at_value) selected = true ∧
    (saveAmountOp df selected mh_value ta_value at_value).all
      (fun r => !sameDate r.Date selected ||
        decide (r.MH = mh_value ∧ r.TA = ta_value ∧ r.AT = at_value ∧
          r.Total = mh_value + ta_value + at_value)) = true := by
  constructor
  · have hc := mem_upsertBy_self AmountRecord.Date df
      (newAmountRecord selected mh_value ta_value at_value)
    rw [existsForDateA, existsSameDate, List.any_eq_true]
    exact ⟨_, hc, sameDate_self selected⟩
  · rw [List.all_eq_true]
    intro r hr
    by_cases hm : sameDate r.Date selected = true
    · have heq := eq_of_mem_upsertBy_matching AmountRecord.Date df
        (newAmountRecord selected mh_value ta_value at_value) r hr hm
      simp [heq, newAmountRecord]
    · simp [Bool.eq_false_iff.mpr hm]

/-- C9: saving nonzero NAV and Vni into an empty `Data` table yields a
single row whose indices are both 100: the empty-table branch of the form
computation sets them to 100 and the whole-table recomputation reproduces
100 as the self-ratio. -/
theorem first_save_indices_are_100 (d : Timestamp) (nav_value vni_value : ℚ)
    (hn : nav_value ≠ 0) (hv : vni_value ≠ 0) :
    saveDataOp [] d nav_value vni_value =
      some [{ Date := d, NAV := nav_value, Vni := vni_value,
              NAV_index := some 100, Vni_index := some 100 }] := by
  simp [saveDataOp, upsertData, upsertBy, existsSameDate, newDataRecord,
    recomputeIndices, rowIndex, colDiv, hn, hv, div_self]

/-- C9 witness: the concrete first save (NAV = 2, Vni = 3). -/
theorem first_save_indices_are_100_witness :
    (2 : ℚ) ≠ 0 ∧ (3 : ℚ) ≠ 0 ∧
    saveDataOp [] ⟨0, 0⟩ 2 3 =
      some [{ Date := ⟨0, 0⟩, NAV := 2, Vni := 3,
              NAV_index := some 100, Vni_index := some 100 }] :=
  ⟨by norm_num, by norm_num,
    first_save_indices_are_100 ⟨0, 0⟩ 2 3 (by norm_num) (by norm_num)⟩

/-- C10: mutation is positional: an upsert leaves every row whose date does
not match at its stored index and appends a fresh date at the end; a
delete keeps the surviving rows in stored order (a sublist); and the
baseline — the first row in storage order — survives any upsert or delete
whose date does not match it. -/
theorem mutations_preserve_stored_order
    (df : List DataRecord) (c : DataRecord) (d : Timestamp) (i : Nat)
    (r : DataRecord) :
    (df[i]? = some r → sameDate r.Date c.Date = false →
      (upsertData df c)[i]? = some r) ∧
    (existsForDateD df c.Date = false → upsertData df c = df ++ [c]) ∧
    (dropDateD df d).Sublist df ∧
    (df.head? = some r → sameDate r.Date c.Date = false →
      (upsertData df c).head? = some r) ∧
    (df.head? = some r → sameDate r.Date d = false →
      (dropDateD df d).head? = some r) := by
  refine ⟨?_, ?_, ?_, ?_, ?_⟩
  · intro hi hs
    exact getElem?_upsertBy_of_not_matching DataRecord.Date df c i r hi hs
  · intro h
    exact upsertBy_of_not_exists DataRecord.Date df c h
  · exact List.filter_sublist df
  · intro hh hs
    cases df with
    | nil => cases hh
    | cons a rest =>
        have ha : a = r := by simpa using hh
        subst ha
        exact head?_upsertBy_of_not_matching DataRecord.Date a rest c hs
  · intro hh hs
    cases df with
    | nil => cases hh
    | cons a rest =>
        have ha : a = r := by simpa using hh
        subst ha
        exact head?_dropDate_of_not_matching DataRecord.Date a rest d hs

end VnStock
